import Mathlib

/-!
Shallow embedding of the solana-ml-scanner token-analysis pipeline.

Python floats are modelled as rationals (ℚ): every constant appearing in the
code (score weights, thresholds) is a short decimal, represented exactly.
Python `Optional[...]` arguments become `Option`, dataclasses become
structures, and early `return` chains become nested `if`/`match`
expressions with the same order of tests.  Wall-clock dates
(`datetime.utcnow().date()`) are modelled as integers ordered like dates,
and the fallible notification dispatch is modelled by an `Except` value
passed in as a parameter.
-/

/-- Token data structure for analysis (src/models/token_data.py, TokenData).
String identity fields and market fields mirror the dataclass; fields the
scoring pipeline never reads (created_at, raw_data) are omitted. -/
structure TokenData where
  address : String := ""
  symbol : String := ""
  name : String := ""
  liquidity_usd : ℚ := 0
  market_cap : ℚ := 0
  price_usd : ℚ := 0
  volume_24h : ℚ := 0
  holders : ℤ := 0
  age_seconds : ℤ := 0
  price_change_5min : ℚ := 0
  price_change_1h : ℚ := 0
  volume_change_2min : ℚ := 0
  holder_growth_rate : ℚ := 0
  liquidity_sol : ℚ := 0
  source : String := "unknown"
deriving Repr, DecidableEq

/-- Results from RugCheck.xyz analysis (src/models/token_data.py, RugCheckResult). -/
structure RugCheckResult where
  overall_score : ℚ
  mint_authority_frozen : Bool
  freeze_authority_revoked : Bool
  top_10_holders_percent : ℚ
  lp_locked : Bool
  lp_burned : Bool
  known_risks : List String := []
  is_honeypot : Bool := false
  can_sell : Bool := true
deriving Repr, DecidableEq

/-- Results from liquidity analysis (src/models/token_data.py, LiquidityResult). -/
structure LiquidityResult where
  total_liquidity_usd : ℚ
  liquidity_sol : ℚ
  lp_locked_percent : ℚ
  lp_burned_percent : ℚ
  price_impact_1k_usd : ℚ := 0
  price_impact_5k_usd : ℚ := 0
  liquidity_stability_score : ℚ := 0
deriving Repr, DecidableEq

/-- Results from holder distribution analysis (src/models/token_data.py, HolderResult). -/
structure HolderResult where
  total_holders : ℤ
  top_10_concentration : ℚ
  top_20_concentration : ℚ := 0
  dev_wallet_percent : ℚ := 0
  growth_rate_per_min : ℚ := 0
  distribution_score : ℚ := 0
deriving Repr, DecidableEq

/-- Results from scoring engine (src/models/token_data.py, ScoringResult). -/
structure ScoringResult where
  score_combined : ℚ
  score_rules : ℚ
  score_ml : ℚ := 0
  security_score : ℚ := 0
  liquidity_score : ℚ := 0
  holder_score : ℚ := 0
  momentum_score : ℚ := 0
  social_score : ℚ := 0
  age_score : ℚ := 0
  risk_level : String := "MEDIUM"
  category : String := "UNKNOWN"
  pattern : String := "UNKNOWN"
  ml_confidence : ℚ := 0
deriving Repr, DecidableEq

/-- Complete analysis result for a token (src/models/token_data.py, AnalysisResult);
the analyzer sub-results are optional exactly as in the dataclass. -/
structure AnalysisResult where
  token : TokenData
  rugcheck : Option RugCheckResult := none
  liquidity : Option LiquidityResult := none
  holders : Option HolderResult := none
  scoring : Option ScoringResult := none
deriving Repr, DecidableEq

/-- AnalysisResult.is_complete: all four analyses present. -/
def AnalysisResult.is_complete (a : AnalysisResult) : Bool :=
  a.rugcheck.isSome && a.liquidity.isSome && a.holders.isSome && a.scoring.isSome

/-- AnalysisResult.should_alert: fail closed unless complete, then compare
scoring.score_combined against min_score. -/
def AnalysisResult.should_alert (a : AnalysisResult) (min_score : ℚ := 70) : Bool :=
  if !a.is_complete || a.scoring.isNone then false
  else
    match a.scoring with
    | some s => decide (min_score ≤ s.score_combined)
    | none => false

namespace ScoringEngine

/-- Scoring engine configuration: ml_weight / rule_weight with the defaults
read in ScoringEngine.__init__ (src/scoring/scoring_engine.py). -/
structure Config where
  ml_weight : ℚ := 0.40
  rule_weight : ℚ := 0.60
deriving Repr, DecidableEq

/-- ScoringEngine._calculate_security_score (0-1), honeypot zeroes the score
before the final clamp. -/
def _calculate_security_score (rugcheck : Option RugCheckResult) : ℚ :=
  match rugcheck with
  | none => 0.5
  | some rc =>
    let score := rc.overall_score / 10
    let score := if rc.mint_authority_frozen then score + 0.1 else score - 0.2
    let score := if rc.freeze_authority_revoked then score + 0.1 else score - 0.2
    let score := if rc.lp_locked || rc.lp_burned then score + 0.15 else score - 0.3
    let score :=
      if rc.top_10_holders_percent < 35 then score + 0.1
      else if rc.top_10_holders_percent > 50 then score - 0.2
      else score
    let score := if rc.is_honeypot then 0 else score
    min 1 (max 0 score)

/-- ScoringEngine._calculate_liquidity_score (0-1). -/
def _calculate_liquidity_score (liquidity : Option LiquidityResult) (token : TokenData) : ℚ :=
  let liquidity_usd :=
    match liquidity with
    | none => token.liquidity_usd
    | some lq => max token.liquidity_usd lq.total_liquidity_usd
  let score : ℚ := 0
  let score :=
    if (10000 : ℚ) ≤ liquidity_usd ∧ liquidity_usd ≤ 300000 then
      score + 0.5 + (if (30000 : ℚ) ≤ liquidity_usd ∧ liquidity_usd ≤ 150000 then 0.2 else 0)
    else if liquidity_usd < 10000 then score + 0.2
    else score + 0.3
  let score :=
    match liquidity with
    | none => score
    | some lq => score + (lq.lp_locked_percent + lq.lp_burned_percent) / 100 * 0.3
  min 1 (max 0 score)

/-- ScoringEngine._calculate_holder_score (0-1). -/
def _calculate_holder_score (holders : Option HolderResult) : ℚ :=
  match holders with
  | none => 0.5
  | some h =>
    let score : ℚ := 0
    let score :=
      if (200 : ℤ) ≤ h.total_holders then score + 0.4
      else if (100 : ℤ) ≤ h.total_holders then score + 0.3
      else if (50 : ℤ) ≤ h.total_holders then score + 0.2
      else if (15 : ℤ) ≤ h.total_holders then score + 0.1
      else score
    let score :=
      if h.top_10_concentration < 25 then score + 0.3
      else if h.top_10_concentration < 35 then score + 0.2
      else if h.top_10_concentration < 50 then score + 0.1
      else score
    let score :=
      if (20 : ℚ) ≤ h.growth_rate_per_min then score + 0.3
      else if (10 : ℚ) ≤ h.growth_rate_per_min then score + 0.2
      else if (5 : ℚ) ≤ h.growth_rate_per_min then score + 0.1
      else score
    min 1 (max 0 score)

/-- ScoringEngine._calculate_momentum_score (0-1). -/
def _calculate_momentum_score (token : TokenData) : ℚ :=
  let score : ℚ := 0
  let score :=
    if (300 : ℚ) ≤ token.volume_change_2min then score + 0.4
    else if (200 : ℚ) ≤ token.volume_change_2min then score + 0.3
    else if (100 : ℚ) ≤ token.volume_change_2min then score + 0.2
    else if (50 : ℚ) ≤ token.volume_change_2min then score + 0.1
    else score
  let score :=
    if (40 : ℚ) ≤ token.price_change_5min then score + 0.3
    else if (20 : ℚ) ≤ token.price_change_5min then score + 0.2
    else if (10 : ℚ) ≤ token.price_change_5min then score + 0.1
    else if token.price_change_5min < 0 then score - 0.2
    else score
  let score :=
    if (100 : ℚ) ≤ token.price_change_1h then score + 0.3
    else if (50 : ℚ) ≤ token.price_change_1h then score + 0.2
    else if (25 : ℚ) ≤ token.price_change_1h then score + 0.1
    else score
  min 1 (max 0 score)

/-- ScoringEngine._calculate_social_score (0-1), volume_24h as proxy. -/
def _calculate_social_score (token : TokenData) : ℚ :=
  let score : ℚ := 0.5
  let score :=
    if token.volume_24h > 100000 then score + 0.3
    else if token.volume_24h > 50000 then score + 0.2
    else if token.volume_24h > 10000 then score + 0.1
    else score
  min 1 (max 0 score)

/-- ScoringEngine._calculate_age_score (0-1), constants by age bucket. -/
def _calculate_age_score (token : TokenData) : ℚ :=
  if token.age_seconds ≤ 120 then 1.0
  else if token.age_seconds ≤ 300 then 0.9
  else if token.age_seconds ≤ 600 then 0.7
  else if token.age_seconds ≤ 1800 then 0.5
  else if token.age_seconds ≤ 3600 then 0.3
  else 0.1

/-- ScoringEngine._calculate_rule_score: weighted sum times 100, clamped to [0,100]. -/
def _calculate_rule_score (security_score liquidity_score holder_score
    momentum_score social_score age_score : ℚ) : ℚ :=
  let score :=
    (security_score * 0.30 +
     liquidity_score * 0.20 +
     holder_score * 0.15 +
     momentum_score * 0.20 +
     social_score * 0.10 +
     age_score * 0.05) * 100
  min 100 (max 0 score)

/-- ScoringEngine._categorize_score: first-match-wins category assignment;
each Python `if ... return` (with its nested guard) becomes one branch. -/
def _categorize_score (score : ℚ) (token : TokenData)
    (rugcheck : Option RugCheckResult) : String :=
  if rugcheck.any fun rc =>
      decide ((9.0 : ℚ) ≤ rc.overall_score) && decide ((70 : ℚ) ≤ score) &&
      (rc.lp_locked || rc.lp_burned) then "SAFE"
  else if token.age_seconds ≤ 120 ∧ (70 : ℚ) ≤ score then "FAST_SNIPER"
  else if (120 < token.age_seconds ∧ token.age_seconds ≤ 300 ∧ (75 : ℚ) ≤ score) ∧
      (rugcheck.any fun rc => decide ((8.5 : ℚ) ≤ rc.overall_score)) = true then "SMART_SNIPER"
  else if (40 : ℚ) ≤ token.price_change_5min ∧ (70 : ℚ) ≤ score then "MOMENTUM"
  else if (80 : ℚ) ≤ score then "FAST_SNIPER"
  else if (70 : ℚ) ≤ score then "SMART_SNIPER"
  else if (60 : ℚ) ≤ score then "MOMENTUM"
  else "SAFE"

/-- ScoringEngine._determine_risk_level: SAFE category returns LOW first;
then base risk from security score, FAST_SNIPER escalation, then the
rugcheck block whose honeypot test returns HIGH before the remaining
escalations. -/
def _determine_risk_level (category : String) (rugcheck : Option RugCheckResult)
    (security_score : ℚ) : String :=
  if category = "SAFE" then "LOW"
  else
    let risk :=
      if (0.8 : ℚ) ≤ security_score then "LOW"
      else if (0.6 : ℚ) ≤ security_score then "MEDIUM"
      else "HIGH"
    let risk := if category = "FAST_SNIPER" ∧ risk = "LOW" then "MEDIUM" else risk
    match rugcheck with
    | none => risk
    | some rc =>
      if rc.is_honeypot then "HIGH"
      else
        let risk :=
          if (¬rc.mint_authority_frozen ∨ ¬rc.freeze_authority_revoked) ∧ risk = "LOW"
          then "MEDIUM" else risk
        let risk :=
          if rc.top_10_holders_percent > 50 ∧ ¬risk = "HIGH" then "MEDIUM" else risk
        risk

/-- ScoringEngine.calculate_score: component scores, rule score, the
ml-gate (`ml_score > 0 and ml_confidence >= 0.50`) choosing combined score
and resetting the reported ml values, then category and risk level. -/
def calculate_score (cfg : Config) (token : TokenData)
    (rugcheck : Option RugCheckResult) (liquidity : Option LiquidityResult)
    (holders : Option HolderResult) (ml_score ml_confidence : ℚ) : ScoringResult :=
  let security_score := _calculate_security_score rugcheck
  let liquidity_score := _calculate_liquidity_score liquidity token
  let holder_score := _calculate_holder_score holders
  let momentum_score := _calculate_momentum_score token
  let social_score := _calculate_social_score token
  let age_score := _calculate_age_score token
  let rule_score := _calculate_rule_score security_score liquidity_score holder_score
    momentum_score social_score age_score
  let combined_score :=
    if 0 < ml_score ∧ (0.50 : ℚ) ≤ ml_confidence
    then rule_score * cfg.rule_weight + ml_score * cfg.ml_weight
    else rule_score
  let ml_score_out := if 0 < ml_score ∧ (0.50 : ℚ) ≤ ml_confidence then ml_score else 0
  let ml_confidence_out :=
    if 0 < ml_score ∧ (0.50 : ℚ) ≤ ml_confidence then ml_confidence else 0
  let category := _categorize_score combined_score token rugcheck
  let risk_level := _determine_risk_level category rugcheck security_score
  { score_combined := combined_score
    score_rules := rule_score
    score_ml := ml_score_out
    security_score := security_score
    liquidity_score := liquidity_score
    holder_score := holder_score
    momentum_score := momentum_score
    social_score := social_score
    age_score := age_score
    risk_level := risk_level
    category := category
    pattern := category
    ml_confidence := ml_confidence_out }

end ScoringEngine

namespace PatternDetector

/-- PatternDetector._is_fast_sniper (src/pattern_detection/pattern_detector.py). -/
def _is_fast_sniper (token : TokenData) (liquidity : Option LiquidityResult)
    (holders : Option HolderResult) : Bool :=
  if 120 < token.age_seconds then false
  else if ¬((10000 : ℚ) ≤ token.liquidity_usd ∧ token.liquidity_usd ≤ 50000) then false
  else if holders.any fun h => decide ((15 : ℚ) ≤ h.growth_rate_per_min) then true
  else if (200 : ℚ) ≤ token.volume_change_2min then true
  else false

/-- PatternDetector._is_smart_sniper. -/
def _is_smart_sniper (token : TokenData) (rugcheck : Option RugCheckResult)
    (liquidity : Option LiquidityResult) : Bool :=
  if ¬(120 < token.age_seconds ∧ token.age_seconds ≤ 300) then false
  else if ¬((30000 : ℚ) ≤ token.liquidity_usd ∧ token.liquidity_usd ≤ 150000) then false
  else
    match rugcheck with
    | some rc =>
      if rc.overall_score < 8.5 then false
      else if ¬(rc.lp_locked || rc.lp_burned) then false
      else true
    | none => false

/-- PatternDetector._is_momentum. -/
def _is_momentum (token : TokenData) (holders : Option HolderResult) : Bool :=
  if ¬(300 < token.age_seconds ∧ token.age_seconds ≤ 1800) then false
  else if token.price_change_5min < 40 then false
  else if holders.any fun h => decide ((10 : ℚ) ≤ h.growth_rate_per_min) then true
  else if 0 < token.volume_change_2min then true
  else false

/-- PatternDetector._is_safe. -/
def _is_safe (rugcheck : Option RugCheckResult) (liquidity : Option LiquidityResult) : Bool :=
  match rugcheck with
  | none => false
  | some rc =>
    if rc.overall_score < 9.0 then false
    else if liquidity.any fun lq =>
        decide (lq.lp_locked_percent + lq.lp_burned_percent < 100) then false
    else if ¬rc.mint_authority_frozen then false
    else if ¬rc.freeze_authority_revoked then false
    else if (25 : ℚ) ≤ rc.top_10_holders_percent then false
    else true

/-- PatternDetector._is_whale_accumulation. -/
def _is_whale_accumulation (token : TokenData) (holders : Option HolderResult) : Bool :=
  if token.volume_change_2min < 300 then false
  else if token.price_change_5min < 20 then false
  else holders.any fun h =>
    decide ((20 : ℚ) ≤ h.top_10_concentration ∧ h.top_10_concentration ≤ 40)

/-- PatternDetector.detect_pattern: first-match-wins over the five pattern
predicates, defaulting to UNKNOWN. -/
def detect_pattern (token : TokenData) (rugcheck : Option RugCheckResult)
    (liquidity : Option LiquidityResult) (holders : Option HolderResult) : String :=
  if _is_fast_sniper token liquidity holders then "FAST_SNIPER"
  else if _is_smart_sniper token rugcheck liquidity then "SMART_SNIPER"
  else if _is_momentum token holders then "MOMENTUM"
  else if _is_safe rugcheck liquidity then "SAFE"
  else if _is_whale_accumulation token holders then "WHALE_ACCUMULATION"
  else "UNKNOWN"

/-- PatternDetector.get_risk_level: pattern-wise risk with rugcheck bonuses. -/
def get_risk_level (pattern : String) (rugcheck : Option RugCheckResult) : String :=
  if pattern = "SAFE" then "LOW"
  else if pattern = "FAST_SNIPER" then
    if rugcheck.any fun rc => decide ((8.0 : ℚ) ≤ rc.overall_score) then "MEDIUM" else "HIGH"
  else if pattern = "SMART_SNIPER" then "MEDIUM"
  else if pattern = "MOMENTUM" then
    if rugcheck.any fun rc => decide ((8.5 : ℚ) ≤ rc.overall_score) then "LOW" else "MEDIUM"
  else if pattern = "WHALE_ACCUMULATION" then
    if rugcheck.any fun rc => decide ((8.0 : ℚ) ≤ rc.overall_score) then "MEDIUM" else "HIGH"
  else "HIGH"

end PatternDetector

namespace LiquidityAnalyzer

/-- LiquidityAnalyzer._estimate_price_impact (src/analyzers/liquidity_analyzer.py):
100 when liquidity is non-positive, else min(100, trade/liquidity*100). -/
def _estimate_price_impact (liquidity_usd trade_size_usd : ℚ) : ℚ :=
  if liquidity_usd ≤ 0 then 100
  else min 100 (trade_size_usd / liquidity_usd * 100)

end LiquidityAnalyzer

namespace Orchestrator

/-- Alert-related configuration read in Orchestrator.__init__ and
_should_alert: daily cap, score threshold, minimal ML confidence and the
category-filter map (modelled as an association list, default-allow on a
missing key, as dict.get(key, True)). -/
structure AlertConfig where
  max_alerts_per_day : ℕ := 15
  min_alert_score : ℚ := 70
  min_ml_confidence : ℚ := 0.65
  category_filters : List (String × Bool) := []
deriving Repr, DecidableEq

/-- Mutable alert-tracking state of the orchestrator: alerts_sent_today,
the date component of last_alert_reset, and total_alerts_sent.  Dates are
modelled as integers ordered like calendar dates. -/
structure AlertState where
  alerts_sent_today : ℕ := 0
  last_alert_reset_date : ℤ := 0
  total_alerts_sent : ℕ := 0
deriving Repr, DecidableEq

/-- Orchestrator._reset_alert_counter_if_needed: zero the daily counter when
the current UTC date is strictly past the last reset's date. -/
def _reset_alert_counter_if_needed (current_date : ℤ) (st : AlertState) : AlertState :=
  if st.last_alert_reset_date < current_date then
    { st with alerts_sent_today := 0, last_alert_reset_date := current_date }
  else st

/-- Lookup in the category-filter map with default True, as
category_filters.get(category_key, True). -/
def filter_lookup (filters : List (String × Bool)) (key : String) : Bool :=
  match filters.find? fun p => p.1 == key with
  | some p => p.2
  | none => true

/-- Orchestrator._should_alert: reset-if-new-day, then daily cap, score
threshold, ML-confidence gate, and the category-filter gate; returns the
decision together with the (possibly reset) alert state. -/
def _should_alert (cfg : AlertConfig) (current_date : ℤ) (st : AlertState)
    (sr : ScoringResult) : Bool × AlertState :=
  let st := _reset_alert_counter_if_needed current_date st
  if cfg.max_alerts_per_day ≤ st.alerts_sent_today then (false, st)
  else if sr.score_combined < cfg.min_alert_score then (false, st)
  else if 0 < sr.ml_confidence ∧ sr.ml_confidence < cfg.min_ml_confidence then (false, st)
  else if cfg.category_filters ≠ [] ∧
      filter_lookup cfg.category_filters sr.category.toLower = false then (false, st)
  else (true, st)

/-- Orchestrator._send_alert: the notification dispatch may raise (modelled
by the Except argument); the two counters are incremented inside the `try`
only after the awaited send returned, and the `except` path leaves the
state untouched. -/
def _send_alert (send_result : Except String Unit) (st : AlertState) : AlertState :=
  match send_result with
  | Except.ok _ =>
    { st with
      alerts_sent_today := st.alerts_sent_today + 1
      total_alerts_sent := st.total_alerts_sent + 1 }
  | Except.error _ => st

/-- The scoring slice of Orchestrator.process_token (lines 285-307): run the
scoring engine, run the pattern detector, then overwrite the pattern and
risk_level fields of the scoring result with the pattern detector's
answers. -/
def process_token_scoring (cfg : ScoringEngine.Config) (token : TokenData)
    (rugcheck : Option RugCheckResult) (liquidity : Option LiquidityResult)
    (holders : Option HolderResult) (ml_score ml_confidence : ℚ) : ScoringResult :=
  let scoring_result :=
    ScoringEngine.calculate_score cfg token rugcheck liquidity holders ml_score ml_confidence
  let pattern := PatternDetector.detect_pattern token rugcheck liquidity holders
  { scoring_result with
    pattern := pattern
    risk_level := PatternDetector.get_risk_level pattern rugcheck }

end Orchestrator

/-- Concrete all-default token used as a counterexample input. -/
def tok0 : TokenData := {}

/-- Concrete honeypot security report used for claim C4. -/
def rcHoneypot : RugCheckResult :=
  { overall_score := 0
    mint_authority_frozen := false
    freeze_authority_revoked := false
    top_10_holders_percent := 99
    lp_locked := false
    lp_burned := false
    is_honeypot := true }

/-- C6 scenario token: age 60s, liquidity 30000 USD. -/
def tokC6 : TokenData := { age_seconds := 60, liquidity_usd := 30000 }

/-- C6 scenario security report: overall 9.5, mint frozen, freeze revoked,
LP burned, top-10 at 10 percent. -/
def rcC6 : RugCheckResult :=
  { overall_score := 9.5
    mint_authority_frozen := true
    freeze_authority_revoked := true
    top_10_holders_percent := 10
    lp_locked := false
    lp_burned := true }

/-- C6 scenario liquidity report: LP 100 percent burned. -/
def lqC6 : LiquidityResult :=
  { total_liquidity_usd := 30000
    liquidity_sol := 0
    lp_locked_percent := 0
    lp_burned_percent := 100 }

/-- C6 scenario holder report: growth rate 20 per minute. -/
def hdC6 : HolderResult :=
  { total_holders := 100
    top_10_concentration := 10
    growth_rate_per_min := 20 }

/-- Concrete complete analyzer reports for the C10 witness. -/
def rcC10 : RugCheckResult :=
  { overall_score := 9
    mint_authority_frozen := true
    freeze_authority_revoked := true
    top_10_holders_percent := 10
    lp_locked := true
    lp_burned := false }

/-- Concrete liquidity report for the C10 witness. -/
def lqC10 : LiquidityResult :=
  { total_liquidity_usd := 50000
    liquidity_sol := 100
    lp_locked_percent := 100
    lp_burned_percent := 0 }

/-- Concrete holder report for the C10 witness. -/
def hdC10 : HolderResult :=
  { total_holders := 150
    top_10_concentration := 20 }

/-- Concrete scoring result for the C10 witness. -/
def srC10 : ScoringResult := { score_combined := 80, score_rules := 80 }

/-- A value clamped as min 1 (max 0 x) lies in [0,1]. -/
lemma clamp01_mem (x : ℚ) : 0 ≤ min 1 (max 0 x) ∧ min 1 (max 0 x) ≤ 1 :=
  ⟨le_min one_pos.le (le_max_left 0 x), min_le_left 1 _⟩

/-- A value clamped as min 100 (max 0 x) lies in [0,100]. -/
lemma clamp100_mem (x : ℚ) : 0 ≤ min 100 (max 0 x) ∧ min 100 (max 0 x) ≤ 100 :=
  ⟨le_min (by norm_num) (le_max_left 0 x), min_le_left 100 _⟩

/-- The security component score lies in [0,1]. -/
lemma security_score_mem (rugcheck : Option RugCheckResult) :
    0 ≤ ScoringEngine._calculate_security_score rugcheck ∧
    ScoringEngine._calculate_security_score rugcheck ≤ 1 := by
  cases rugcheck with
  | none =>
    simp only [ScoringEngine._calculate_security_score]
    norm_num
  | some rc =>
    simp only [ScoringEngine._calculate_security_score]
    exact clamp01_mem _

/-- The liquidity component score lies in [0,1]. -/
lemma liquidity_score_mem (liquidity : Option LiquidityResult) (token : TokenData) :
    0 ≤ ScoringEngine._calculate_liquidity_score liquidity token ∧
    ScoringEngine._calculate_liquidity_score liquidity token ≤ 1 := by
  simp only [ScoringEngine._calculate_liquidity_score]
  exact clamp01_mem _

/-- The holder component score lies in [0,1]. -/
lemma holder_score_mem (holders : Option HolderResult) :
    0 ≤ ScoringEngine._calculate_holder_score holders ∧
    ScoringEngine._calculate_holder_score holders ≤ 1 := by
  cases holders with
  | none =>
    simp only [ScoringEngine._calculate_holder_score]
    norm_num
  | some h =>
    simp only [ScoringEngine._calculate_holder_score]
    exact clamp01_mem _

/-- The momentum component score lies in [0,1]. -/
lemma momentum_score_mem (token : TokenData) :
    0 ≤ ScoringEngine._calculate_momentum_score token ∧
    ScoringEngine._calculate_momentum_score token ≤ 1 := by
  simp only [ScoringEngine._calculate_momentum_score]
  exact clamp01_mem _

/-- The social component score lies in [0,1]. -/
lemma social_score_mem (token : TokenData) :
    0 ≤ ScoringEngine._calculate_social_score token ∧
    ScoringEngine._calculate_social_score token ≤ 1 := by
  simp only [ScoringEngine._calculate_social_score]
  exact clamp01_mem _

/-- The age component score lies in [0,1]. -/
lemma age_score_mem (token : TokenData) :
    0 ≤ ScoringEngine._calculate_age_score token ∧
    ScoringEngine._calculate_age_score token ≤ 1 := by
  unfold ScoringEngine._calculate_age_score
  repeat' split
  all_goals norm_num

/-- The rule-based score lies in [0,100]. -/
lemma rule_score_mem (a b c d e f : ℚ) :
    0 ≤ ScoringEngine._calculate_rule_score a b c d e f ∧
    ScoringEngine._calculate_rule_score a b c d e f ≤ 100 := by
  simp only [ScoringEngine._calculate_rule_score]
  exact clamp100_mem _

/-- C1 (corrected): the orchestrator's process_token overwrites the
ScoringResult's pattern and risk_level with the Pattern Detector's answers,
but leaves category as the Scoring Engine's.  Counterexample: for the
all-default token with no analyzer reports, the final category is "SAFE"
(Scoring Engine) while detect_pattern returns "UNKNOWN". -/
theorem C1_counterexample :
    (Orchestrator.process_token_scoring {} tok0 none none none 0 0).category = "SAFE" ∧
    PatternDetector.detect_pattern tok0 none none none = "UNKNOWN" ∧
    (Orchestrator.process_token_scoring {} tok0 none none none 0 0).category ≠
      PatternDetector.detect_pattern tok0 none none none := by
  have h1 : (Orchestrator.process_token_scoring {} tok0 none none none 0 0).category = "SAFE" := by
    norm_num [tok0, Orchestrator.process_token_scoring, ScoringEngine.calculate_score,
      ScoringEngine._calculate_security_score, ScoringEngine._calculate_liquidity_score,
      ScoringEngine._calculate_holder_score, ScoringEngine._calculate_momentum_score,
      ScoringEngine._calculate_social_score, ScoringEngine._calculate_age_score,
      ScoringEngine._calculate_rule_score, ScoringEngine._categorize_score]
  have h2 : PatternDetector.detect_pattern tok0 none none none = "UNKNOWN" := by
    norm_num [tok0, PatternDetector.detect_pattern, PatternDetector._is_fast_sniper,
      PatternDetector._is_smart_sniper, PatternDetector._is_momentum,
      PatternDetector._is_safe, PatternDetector._is_whale_accumulation, Option.any]
  exact ⟨h1, h2, by rw [h1, h2]; decide⟩

/-- C1 (amended): after process_token, pattern equals detect_pattern's
output and risk_level equals get_risk_level of that pattern, while category
keeps the Scoring Engine's value from calculate_score. -/
theorem C1_overwrite (cfg : ScoringEngine.Config) (token : TokenData)
    (rugcheck : Option RugCheckResult) (liquidity : Option LiquidityResult)
    (holders : Option HolderResult) (ml_score ml_confidence : ℚ) :
    (Orchestrator.process_token_scoring cfg token rugcheck liquidity holders
        ml_score ml_confidence).pattern
      = PatternDetector.detect_pattern token rugcheck liquidity holders ∧
    (Orchestrator.process_token_scoring cfg token rugcheck liquidity holders
        ml_score ml_confidence).risk_level
      = PatternDetector.get_risk_level
          (PatternDetector.detect_pattern token rugcheck liquidity holders) rugcheck ∧
    (Orchestrator.process_token_scoring cfg token rugcheck liquidity holders
        ml_score ml_confidence).category
      = (ScoringEngine.calculate_score cfg token rugcheck liquidity holders
          ml_score ml_confidence).category :=
  ⟨rfl, rfl, rfl⟩

/-- C2 (corrected): with the default weights, ml_score 1000 and
ml_confidence 1 drive score_combined above 100, refuting the claim's
unconditional [0,100] bound on score_combined. -/
theorem C2_counterexample :
    100 < (ScoringEngine.calculate_score {} tok0 none none none 1000 1).score_combined := by
  norm_num [tok0, ScoringEngine.calculate_score,
    ScoringEngine._calculate_security_score, ScoringEngine._calculate_liquidity_score,
    ScoringEngine._calculate_holder_score, ScoringEngine._calculate_momentum_score,
    ScoringEngine._calculate_social_score, ScoringEngine._calculate_age_score,
    ScoringEngine._calculate_rule_score]

/-- C2 (amended): every component score lies in [0,1] and score_rules in
[0,100] unconditionally; score_combined lies in [0,100] provided the
ml_score argument is in [0,100] and the configured weights are nonnegative
with rule_weight + ml_weight at most 1 (the defaults 0.60/0.40 qualify). -/
theorem C2_score_bounds (cfg : ScoringEngine.Config) (token : TokenData)
    (rugcheck : Option RugCheckResult) (liquidity : Option LiquidityResult)
    (holders : Option HolderResult) (ml_score ml_confidence : ℚ) :
    (0 ≤ (ScoringEngine.calculate_score cfg token rugcheck liquidity holders
        ml_score ml_confidence).security_score ∧
      (ScoringEngine.calculate_score cfg token rugcheck liquidity holders
        ml_score ml_confidence).security_score ≤ 1) ∧
    (0 ≤ (ScoringEngine.calculate_score cfg token rugcheck liquidity holders
        ml_score ml_confidence).liquidity_score ∧
      (ScoringEngine.calculate_score cfg token rugcheck liquidity holders
        ml_score ml_confidence).liquidity_score ≤ 1) ∧
    (0 ≤ (ScoringEngine.calculate_score cfg token rugcheck liquidity holders
        ml_score ml_confidence).holder_score ∧
      (ScoringEngine.calculate_score cfg token rugcheck liquidity holders
        ml_score ml_confidence).holder_score ≤ 1) ∧
    (0 ≤ (ScoringEngine.calculate_score cfg token rugcheck liquidity holders
        ml_score ml_confidence).momentum_score ∧
      (ScoringEngine.calculate_score cfg token rugcheck liquidity holders
        ml_score ml_confidence).momentum_score ≤ 1) ∧
    (0 ≤ (ScoringEngine.calculate_score cfg token rugcheck liquidity holders
        ml_score ml_confidence).social_score ∧
      (ScoringEngine.calculate_score cfg token rugcheck liquidity holders
        ml_score ml_confidence).social_score ≤ 1) ∧
    (0 ≤ (ScoringEngine.calculate_score cfg token rugcheck liquidity holders
        ml_score ml_confidence).age_score ∧
      (ScoringEngine.calculate_score cfg token rugcheck liquidity holders
        ml_score ml_confidence).age_score ≤ 1) ∧
    (0 ≤ (ScoringEngine.calculate_score cfg token rugcheck liquidity holders
        ml_score ml_confidence).score_rules ∧
      (ScoringEngine.calculate_score cfg token rugcheck liquidity holders
        ml_score ml_confidence).score_rules ≤ 100) ∧
    (0 ≤ ml_score → ml_score ≤ 100 → 0 ≤ cfg.rule_weight → 0 ≤ cfg.ml_weight →
      cfg.rule_weight + cfg.ml_weight ≤ 1 →
      0 ≤ (ScoringEngine.calculate_score cfg token rugcheck liquidity holders
          ml_score ml_confidence).score_combined ∧
        (ScoringEngine.calculate_score cfg token rugcheck liquidity holders
          ml_score ml_confidence).score_combined ≤ 100) := by
  refine ⟨security_score_mem rugcheck, liquidity_score_mem liquidity token,
    holder_score_mem holders, momentum_score_mem token, social_score_mem token,
    age_score_mem token, rule_score_mem _ _ _ _ _ _, ?_⟩
  intro hml0 hml100 hwr hwm hsum
  have hrule := rule_score_mem
    (ScoringEngine._calculate_security_score rugcheck)
    (ScoringEngine._calculate_liquidity_score liquidity token)
    (ScoringEngine._calculate_holder_score holders)
    (ScoringEngine._calculate_momentum_score token)
    (ScoringEngine._calculate_social_score token)
    (ScoringEngine._calculate_age_score token)
  have hcomb : (ScoringEngine.calculate_score cfg token rugcheck liquidity holders
      ml_score ml_confidence).score_combined =
      if 0 < ml_score ∧ (0.50 : ℚ) ≤ ml_confidence
      then ScoringEngine._calculate_rule_score
          (ScoringEngine._calculate_security_score rugcheck)
          (ScoringEngine._calculate_liquidity_score liquidity token)
          (ScoringEngine._calculate_holder_score holders)
          (ScoringEngine._calculate_momentum_score token)
          (ScoringEngine._calculate_social_score token)
          (ScoringEngine._calculate_age_score token) * cfg.rule_weight
        + ml_score * cfg.ml_weight
      else ScoringEngine._calculate_rule_score
          (ScoringEngine._calculate_security_score rugcheck)
          (ScoringEngine._calculate_liquidity_score liquidity token)
          (ScoringEngine._calculate_holder_score holders)
          (ScoringEngine._calculate_momentum_score token)
          (ScoringEngine._calculate_social_score token)
          (ScoringEngine._calculate_age_score token) := rfl
  rw [hcomb]
  split
  · constructor
    · exact add_nonneg (mul_nonneg hrule.1 hwr) (mul_nonneg hml0 hwm)
    · have h1 : ScoringEngine._calculate_rule_score
          (ScoringEngine._calculate_security_score rugcheck)
          (ScoringEngine._calculate_liquidity_score liquidity token)
          (ScoringEngine._calculate_holder_score holders)
          (ScoringEngine._calculate_momentum_score token)
          (ScoringEngine._calculate_social_score token)
          (ScoringEngine._calculate_age_score token) * cfg.rule_weight
          ≤ 100 * cfg.rule_weight :=
        mul_le_mul_of_nonneg_right hrule.2 hwr
      have h2 : ml_score * cfg.ml_weight ≤ 100 * cfg.ml_weight :=
        mul_le_mul_of_nonneg_right hml100 hwm
      linarith
  · exact hrule

/-- C2 (witness): the amended bound instantiated at the default
configuration, the all-default token and trusted ML inputs 50 / 0.9. -/
theorem C2_witness :
    0 ≤ (ScoringEngine.calculate_score {} tok0 none none none 50 0.9).score_combined ∧
    (ScoringEngine.calculate_score {} tok0 none none none 50 0.9).score_combined ≤ 100 :=
  (C2_score_bounds {} tok0 none none none 50 0.9).2.2.2.2.2.2.2
    (by norm_num) (by norm_num)
    (by norm_num [ScoringEngine.Config.rule_weight])
    (by norm_num [ScoringEngine.Config.ml_weight])
    (by norm_num [ScoringEngine.Config.rule_weight, ScoringEngine.Config.ml_weight])

/-- C3: when the ml_score argument is not strictly positive or
ml_confidence is below 0.50, calculate_score returns score_combined equal
to score_rules and zeroes the reported ml_score and ml_confidence. -/
theorem C3_ml_gate (cfg : ScoringEngine.Config) (token : TokenData)
    (rugcheck : Option RugCheckResult) (liquidity : Option LiquidityResult)
    (holders : Option HolderResult) (ml_score ml_confidence : ℚ)
    (h : ml_score ≤ 0 ∨ ml_confidence < 0.50) :
    (ScoringEngine.calculate_score cfg token rugcheck liquidity holders
        ml_score ml_confidence).score_combined
      = (ScoringEngine.calculate_score cfg token rugcheck liquidity holders
        ml_score ml_confidence).score_rules ∧
    (ScoringEngine.calculate_score cfg token rugcheck liquidity holders
        ml_score ml_confidence).score_ml = 0 ∧
    (ScoringEngine.calculate_score cfg token rugcheck liquidity holders
        ml_score ml_confidence).ml_confidence = 0 := by
  have hc : ¬(0 < ml_score ∧ (0.50 : ℚ) ≤ ml_confidence) := by
    rcases h with h | h
    · exact fun hx => absurd hx.1 (not_lt.mpr h)
    · exact fun hx => absurd hx.2 (not_le.mpr h)
  refine ⟨?_, ?_, ?_⟩ <;>
    simp only [ScoringEngine.calculate_score, if_neg hc]

/-- C3 (witness): the gate instantiated with ml_score 0 and
ml_confidence 0.9. -/
theorem C3_witness :
    (ScoringEngine.calculate_score {} tok0 none none none 0 0.9).score_combined
      = (ScoringEngine.calculate_score {} tok0 none none none 0 0.9).score_rules ∧
    (ScoringEngine.calculate_score {} tok0 none none none 0 0.9).score_ml = 0 ∧
    (ScoringEngine.calculate_score {} tok0 none none none 0 0.9).ml_confidence = 0 :=
  C3_ml_gate {} tok0 none none none 0 0.9 (Or.inl le_rfl)

/-- C4 (corrected): the honeypot penalty is not unconditional — the SAFE
category's early LOW return precedes the honeypot check, so for a honeypot
report under category SAFE the Scoring Engine returns LOW, not HIGH. -/
theorem C4_counterexample :
    rcHoneypot.is_honeypot = true ∧
    ScoringEngine._determine_risk_level "SAFE" (some rcHoneypot) 0 = "LOW" ∧
    ScoringEngine._determine_risk_level "SAFE" (some rcHoneypot) 0 ≠ "HIGH" := by
  have h : ScoringEngine._determine_risk_level "SAFE" (some rcHoneypot) 0 = "LOW" := by
    norm_num [ScoringEngine._determine_risk_level]
  exact ⟨rfl, h, by rw [h]; decide⟩

/-- C4 (amended): for every category other than SAFE, a honeypot security
report makes _determine_risk_level return HIGH, whatever the security
component score. -/
theorem C4_honeypot_high (category : String) (rc : RugCheckResult) (security_score : ℚ)
    (hcat : category ≠ "SAFE") (hhp : rc.is_honeypot = true) :
    ScoringEngine._determine_risk_level category (some rc) security_score = "HIGH" := by
  simp [ScoringEngine._determine_risk_level, hcat, hhp]

/-- C4 (witness): the amended statement at category FAST_SNIPER with the
concrete honeypot report. -/
theorem C4_witness :
    ScoringEngine._determine_risk_level "FAST_SNIPER" (some rcHoneypot) 0 = "HIGH" :=
  C4_honeypot_high "FAST_SNIPER" rcHoneypot 0 (by decide) rfl

/-- C5: SAFE always yields LOW from both risk functions, for every security
report argument and every security component score. -/
theorem C5_safe_low (rugcheck rugcheck2 : Option RugCheckResult) (security_score : ℚ) :
    ScoringEngine._determine_risk_level "SAFE" rugcheck security_score = "LOW" ∧
    PatternDetector.get_risk_level "SAFE" rugcheck2 = "LOW" := by
  constructor
  · simp [ScoringEngine._determine_risk_level]
  · simp [PatternDetector.get_risk_level]

/-- C6: for the scenario token (age 60s, liquidity 30000, holder growth 20
per minute, security 9.5 with frozen mint, revoked freeze, burned LP and
top-10 of 10 percent), detect_pattern returns FAST_SNIPER and get_risk_level
of that pattern is MEDIUM. -/
theorem C6_scenario :
    PatternDetector.detect_pattern tokC6 (some rcC6) (some lqC6) (some hdC6)
      = "FAST_SNIPER" ∧
    PatternDetector.get_risk_level
      (PatternDetector.detect_pattern tokC6 (some rcC6) (some lqC6) (some hdC6))
      (some rcC6) = "MEDIUM" := by
  have h : PatternDetector.detect_pattern tokC6 (some rcC6) (some lqC6) (some hdC6)
      = "FAST_SNIPER" := by
    norm_num [tokC6, rcC6, lqC6, hdC6, PatternDetector.detect_pattern,
      PatternDetector._is_fast_sniper, Option.any]
  have h8 : ((some rcC6).any fun rc => decide ((8.0 : ℚ) ≤ rc.overall_score)) = true := by
    norm_num [Option.any, rcC6]
  refine ⟨h, ?_⟩
  rw [h]
  simp only [PatternDetector.get_risk_level, h8]
  decide

/-- C7: the price-impact estimate is monotone non-decreasing in trade size,
monotone non-increasing in liquidity on positive liquidity, and exactly 100
at non-positive liquidity. -/
theorem C7_price_impact :
    (∀ L T1 T2 : ℚ, 0 ≤ T1 → T1 ≤ T2 →
      LiquidityAnalyzer._estimate_price_impact L T1
        ≤ LiquidityAnalyzer._estimate_price_impact L T2) ∧
    (∀ T L1 L2 : ℚ, 0 ≤ T → 0 < L1 → L1 ≤ L2 →
      LiquidityAnalyzer._estimate_price_impact L2 T
        ≤ LiquidityAnalyzer._estimate_price_impact L1 T) ∧
    (∀ T L : ℚ, L ≤ 0 → LiquidityAnalyzer._estimate_price_impact L T = 100) := by
  refine ⟨?_, ?_, ?_⟩
  · intro L T1 T2 h0 h12
    unfold LiquidityAnalyzer._estimate_price_impact
    split
    · exact le_refl 100
    · rename_i hL
      push_neg at hL
      refine min_le_min le_rfl ?_
      gcongr
  · intro T L1 L2 hT hL1 hL12
    have hL2 : 0 < L2 := lt_of_lt_of_le hL1 hL12
    unfold LiquidityAnalyzer._estimate_price_impact
    rw [if_neg (not_le.mpr hL1), if_neg (not_le.mpr hL2)]
    refine min_le_min le_rfl ?_
    gcongr
  · intro T L hL
    unfold LiquidityAnalyzer._estimate_price_impact
    rw [if_pos hL]

/-- C7 (witness): the three monotonicity facts at concrete inputs. -/
theorem C7_witness :
    LiquidityAnalyzer._estimate_price_impact 10 3
      ≤ LiquidityAnalyzer._estimate_price_impact 10 5 ∧
    LiquidityAnalyzer._estimate_price_impact 20 7
      ≤ LiquidityAnalyzer._estimate_price_impact 10 7 ∧
    LiquidityAnalyzer._estimate_price_impact 0 9 = 100 :=
  ⟨C7_price_impact.1 10 3 5 (by norm_num) (by norm_num),
   C7_price_impact.2.1 7 10 20 (by norm_num) (by norm_num) (by norm_num),
   C7_price_impact.2.2 9 0 le_rfl⟩

/-- C8: once the daily counter has reached the cap and the date has not
advanced past the last reset's date, _should_alert returns false regardless
of the scoring result. -/
theorem C8_daily_cap (cfg : Orchestrator.AlertConfig) (current_date : ℤ)
    (st : Orchestrator.AlertState) (sr : ScoringResult)
    (hcap : cfg.max_alerts_per_day ≤ st.alerts_sent_today)
    (hdate : current_date ≤ st.last_alert_reset_date) :
    (Orchestrator._should_alert cfg current_date st sr).1 = false := by
  have hreset : Orchestrator._reset_alert_counter_if_needed current_date st = st := by
    unfold Orchestrator._reset_alert_counter_if_needed
    rw [if_neg (not_lt.mpr hdate)]
  simp [Orchestrator._should_alert, hreset, hcap]

/-- C8 (witness): cap 15, counter 15, score_combined 95, same date — the
admission predicate returns false. -/
theorem C8_witness :
    (Orchestrator._should_alert { max_alerts_per_day := 15 } 0
      { alerts_sent_today := 15, last_alert_reset_date := 0, total_alerts_sent := 15 }
      { score_combined := 95, score_rules := 95 }).1 = false :=
  C8_daily_cap { max_alerts_per_day := 15 } 0
    { alerts_sent_today := 15, last_alert_reset_date := 0, total_alerts_sent := 15 }
    { score_combined := 95, score_rules := 95 } (by norm_num) (by norm_num)

/-- C9: a send that raises leaves both alert counters unchanged, while a
send that returns increments both — a failed dispatch never consumes
daily-cap budget. -/
theorem C9_counters_on_failure (msg : String) (st : Orchestrator.AlertState) :
    (Orchestrator._send_alert (Except.error msg) st).alerts_sent_today
      = st.alerts_sent_today ∧
    (Orchestrator._send_alert (Except.error msg) st).total_alerts_sent
      = st.total_alerts_sent ∧
    (Orchestrator._send_alert (Except.ok ()) st).alerts_sent_today
      = st.alerts_sent_today + 1 ∧
    (Orchestrator._send_alert (Except.ok ()) st).total_alerts_sent
      = st.total_alerts_sent + 1 :=
  ⟨rfl, rfl, rfl, rfl⟩

/-- C10: AnalysisResult.should_alert fails closed when any analyzer result
is absent, and on complete analyses holds exactly when score_combined
reaches min_score. -/
theorem C10_model_should_alert :
    (∀ (a : AnalysisResult) (min_score : ℚ),
      (a.rugcheck = none ∨ a.liquidity = none ∨ a.holders = none ∨ a.scoring = none) →
      a.should_alert min_score = false) ∧
    (∀ (a : AnalysisResult) (min_score : ℚ) (rc : RugCheckResult)
      (lq : LiquidityResult) (hd : HolderResult) (s : ScoringResult),
      a.rugcheck = some rc → a.liquidity = some lq → a.holders = some hd →
      a.scoring = some s →
      (a.should_alert min_score = true ↔ min_score ≤ s.score_combined)) := by
  constructor
  · intro a ms h
    rcases h with h | h | h | h <;>
      simp [AnalysisResult.should_alert, AnalysisResult.is_complete, h]
  · intro a ms rc lq hd s h1 h2 h3 h4
    simp [AnalysisResult.should_alert, AnalysisResult.is_complete, h1, h2, h3, h4]

/-- C10 (witness): an analysis missing its scoring result never alerts, and
a complete analysis with score 80 alerts exactly when 70 ≤ 80. -/
theorem C10_witness :
    ({ token := tok0, scoring := none } : AnalysisResult).should_alert 70 = false ∧
    (({ token := tok0, rugcheck := some rcC10, liquidity := some lqC10,
        holders := some hdC10, scoring := some srC10 } : AnalysisResult).should_alert 70
        = true ↔ (70 : ℚ) ≤ srC10.score_combined) :=
  ⟨C10_model_should_alert.1 { token := tok0, scoring := none } 70
      (Or.inr (Or.inr (Or.inr rfl))),
   C10_model_should_alert.2
      { token := tok0, rugcheck := some rcC10, liquidity := some lqC10,
        holders := some hdC10, scoring := some srC10 } 70 rcC10 lqC10 hdC10 srC10
      rfl rfl rfl rfl⟩
